import Mathlib

/-!
Verification development for a Shopify GraphQL proxy written in TypeScript.

The repository consists of a core module (`shopify-graphql-core.ts`), a CLI
entry point (`minimal-shopify-query.ts`), and an HTTP server entry point
(`graphql-server.ts`).  The definitions below are a shallow embedding of that
code.  Network calls (`fetch`) are modelled by passing the platform's reply as
an explicit value; the reply records whether the HTTP call succeeded
(`res.ok`), the status line, the raw body text, and the parsed JSON body.
JavaScript string primitives (`split`, `trim`, `slice`, `startsWith`) are
embedded as executable functions on `String.data` so that every definition
reduces in the kernel.
-/

/-- JSON values as produced by `JSON.parse`: null, booleans, numbers
(restricted to integers — no claim depends on fractional values), strings,
arrays and objects.  Object fields keep insertion order; `JSON.parse` keeps
the last of any duplicated key, which `jsonGet` below honours. -/
inductive Json where
  | null : Json
  | bool : Bool → Json
  | num : Int → Json
  | str : String → Json
  | arr : List Json → Json
  | obj : List (String × Json) → Json

/-- JavaScript truthiness of a JSON value: `null`, `false`, `0` and `""` are
falsy; every array and object (including the empty ones) is truthy. -/
def Json.truthy : Json → Bool
  | Json.null => false
  | Json.bool b => b
  | Json.num n => n != 0
  | Json.str s => s != ""
  | Json.arr _ => true
  | Json.obj _ => true

/-- Whether a JSON value is `null` (`x === null` / the nullish test of `??`). -/
def Json.isNull : Json → Bool
  | Json.null => true
  | _ => false

/-- Property lookup on a parsed JSON object: the last binding of the key wins
(matching `JSON.parse`, where a duplicated key keeps the last value).  Lookup
on a non-object yields `undefined`, embedded as `none`. -/
def lookupLast : List (String × Json) → String → Option Json
  | [], _ => none
  | (k, v) :: rest, key =>
    match lookupLast rest key with
    | some r => some r
    | none => if k = key then some v else none

/-- JavaScript property access `j[key]` on a parsed JSON value other than
`null`: a missing field, and access on a non-object value, yield `undefined`
(`none`).  Property access on JavaScript `null` instead throws a
`TypeError`; every use of `jsonGet` below is therefore guarded by an
explicit null test mirroring the place where the source would throw
(`runShopifyQuery` at its `data.errors` access, `handleGraphQLRequest` at
the body destructuring). -/
def jsonGet : Json → String → Option Json
  | Json.obj fields, key => lookupLast fields key
  | _, _ => none

/-- Escape one character the way `JSON.stringify` escapes string contents. -/
def escapeJsonChar (c : Char) : String :=
  if c = '"' then "\\\""
  else if c = '\\' then "\\\\"
  else if c = '\n' then "\\n"
  else if c = '\r' then "\\r"
  else if c = '\t' then "\\t"
  else String.mk [c]

/-- `JSON.stringify` applied to a string value. -/
def quoteJsonString (s : String) : String :=
  "\"" ++ String.join (s.data.map escapeJsonChar) ++ "\""

mutual

/-- `JSON.stringify` of a JSON value. -/
def Json.stringify : Json → String
  | Json.null => "null"
  | Json.bool b => cond b "true" "false"
  | Json.num n => toString n
  | Json.str s => quoteJsonString s
  | Json.arr xs => "[" ++ Json.stringifyArr xs ++ "]"
  | Json.obj fields => "\x7b" ++ Json.stringifyObj fields ++ "\x7d"

/-- Comma-separated serialization of the elements of a JSON array. -/
def Json.stringifyArr : List Json → String
  | [] => ""
  | [j] => Json.stringify j
  | j :: rest => Json.stringify j ++ "," ++ Json.stringifyArr rest

/-- Comma-separated serialization of the fields of a JSON object. -/
def Json.stringifyObj : List (String × Json) → String
  | [] => ""
  | [(k, v)] => quoteJsonString k ++ ":" ++ Json.stringify v
  | (k, v) :: rest =>
    quoteJsonString k ++ ":" ++ Json.stringify v ++ "," ++ Json.stringifyObj rest

end

/-- JavaScript `String.prototype.trim`, embedded on the character list:
whitespace is stripped from both ends. -/
def jsTrim (s : String) : String :=
  String.mk (((s.data.dropWhile Char.isWhitespace).reverse.dropWhile
    Char.isWhitespace).reverse)

/-- Split a character list at every occurrence of the separator character.
`[] ↦ [[]]`, matching JavaScript where `"".split(",")` is `[""]`. -/
def splitOnChar (sep : Char) : List Char → List (List Char)
  | [] => [[]]
  | c :: rest =>
    let r := splitOnChar sep rest
    if c = sep then [] :: r
    else
      match r with
      | h :: t => (c :: h) :: t
      | [] => [[c]]

/-- JavaScript `String.prototype.split` with a one-character separator. -/
def jsSplit (s : String) (sep : Char) : List String :=
  (splitOnChar sep s.data).map String.mk

/-- JavaScript `Array.prototype.join`. -/
def jsJoin (sep : String) : List String → String
  | [] => ""
  | [x] => x
  | x :: rest => x ++ sep ++ jsJoin sep rest

/-- JavaScript `String.prototype.startsWith`. -/
def jsStartsWith (s pre : String) : Bool :=
  pre.data.isPrefixOf s.data

/-- JavaScript `String.prototype.slice(n)` (drop the first `n` characters). -/
def jsSlice (s : String) (n : Nat) : String :=
  String.mk (s.data.drop n)

/-! ## Core module: `shopify-graphql-core.ts` -/

/-- `DEFAULT_SCOPES` literal of the core module. -/
def DEFAULT_SCOPES : String :=
  "read_orders,read_products,read_customers,read_inventory"

/-- `ShopifyConfig` of the core module.  `apiVersion` and `scopes` are the
optional fields; `none` embeds a missing (`undefined`) field. -/
structure ShopifyConfig where
  shopDomain : String
  accessToken : String
  apiVersion : Option String
  scopes : Option String

/-- `getRequiredScopes(scopesEnv?)`: fall back to `DEFAULT_SCOPES`, split on
commas, trim every entry, and `filter(Boolean)` — i.e. drop the entries that
are empty after trimming. -/
def getRequiredScopes (scopesEnv : Option String) : List String :=
  let scopes := scopesEnv.getD DEFAULT_SCOPES
  ((jsSplit scopes ',').map jsTrim).filter (fun scope => scope != "")

/-- Reply of one `fetch` against `/admin/oauth/access_scopes.json`.
`accessScopeHandles` is the list `data.access_scopes[].handle` parsed from the
JSON body in the `ok` case; `status`, `statusText` and `bodyText` feed the
error message in the non-`ok` case. -/
structure ScopesReply where
  ok : Bool
  status : Nat
  statusText : String
  bodyText : String
  accessScopeHandles : List String

/-- The granted-scope set built by `getMissingScopes`: each handle trimmed,
empty entries discarded (`filter(Boolean)`).  The JavaScript `Set` is embedded
as the underlying list; membership is list membership. -/
def grantedScopes (handles : List String) : List String :=
  (handles.map jsTrim).filter (fun scope => scope != "")

/-- `getMissingScopes(shop, accessToken, requiredScopes)` after the `fetch`
reply is known: on a non-`ok` reply throw the scope-fetch error, otherwise
keep the required scopes that are not in the granted set. -/
def getMissingScopes (reply : ScopesReply) (requiredScopes : List String) :
    Except String (List String) :=
  if reply.ok then
    Except.ok (requiredScopes.filter
      (fun scope => !(grantedScopes reply.accessScopeHandles).contains scope))
  else
    Except.error ("获取 Shopify 授权 scope 失败 (" ++ toString reply.status ++ " "
      ++ reply.statusText ++ "): " ++ reply.bodyText)

/-- Reply of one `fetch` against `/admin/api/<version>/graphql.json`.  `json`
is the parsed body (`await res.json()`), used only in the `ok` case. -/
structure QueryReply where
  ok : Bool
  status : Nat
  statusText : String
  bodyText : String
  json : Json

/-- JavaScript `a ?? b` where `a` is a property access (absent ↦ `none`). -/
def jsNullish (a : Option Json) (b : Json) : Json :=
  match a with
  | some v => if v.isNull then b else v
  | none => b

/-- Message of the `TypeError` thrown by the `data.errors` access when the
parsed success body is JSON `null` (property access on `null` throws).  The
exact runtime text is engine-specific; it is modelled as this fixed string,
which no claim inspects. -/
def errorsAccessNullMessage : String :=
  "Cannot read properties of null (reading \x27errors\x27)"

/-- `runShopifyQuery` after its `fetch` reply is known.  Non-`ok` replies
throw the Shopify API error.  Otherwise `if (data.errors) throw`: when the
parsed body is JSON `null`, the property access itself throws a `TypeError`;
for any other body the test is JavaScript truthiness of the `errors` field —
an array is always truthy — and on fall-through the result is
`data.data ?? data`. -/
def runShopifyQuery (reply : QueryReply) : Except String Json :=
  if reply.ok then
    let data := reply.json
    if data.isNull then
      Except.error errorsAccessNullMessage
    else
      match jsonGet data "errors" with
      | some e =>
        if e.truthy then
          Except.error ("Shopify GraphQL errors: " ++ Json.stringify e)
        else
          Except.ok (jsNullish (jsonGet data "data") data)
      | none => Except.ok (jsNullish (jsonGet data "data") data)
  else
    Except.error ("Shopify API error (" ++ toString reply.status ++ " "
      ++ reply.statusText ++ "): " ++ reply.bodyText)

/-- Observable platform traffic of one orchestration run: the scope
introspection `fetch` and the GraphQL forwarding `fetch`. -/
inductive CallEvent where
  | scopeIntrospection : CallEvent
  | graphqlForward : CallEvent
deriving DecidableEq

/-- `validateAndQuery(config, query, variables)`: compute the required scopes,
fetch the granted scopes (recording the introspection call), throw the
authorization error when any scope is missing, and only then forward the
query (recording the forwarding call).  The pair returns the thrown/returned
value together with the trace of platform calls issued, in order.  `query`
and `variables` only enter the forwarded request body, which the reply oracle
`queryReply` abstracts, so they do not affect the observable result. -/
def validateAndQuery (config : ShopifyConfig) (query : String)
    (vars : Option Json) (scopesReply : ScopesReply)
    (queryReply : QueryReply) : Except String Json × List CallEvent :=
  let requiredScopes := getRequiredScopes config.scopes
  match getMissingScopes scopesReply requiredScopes with
  | Except.error e => (Except.error e, [CallEvent.scopeIntrospection])
  | Except.ok missingScopes =>
    if missingScopes.length > 0 then
      (Except.error ("Shopify 应用缺少以下授权：" ++ jsJoin ", " missingScopes
        ++ "。请重新安装应用以授予这些 scope。"),
       [CallEvent.scopeIntrospection])
    else
      (runShopifyQuery queryReply,
       [CallEvent.scopeIntrospection, CallEvent.graphqlForward])

/-! ## HTTP server: `graphql-server.ts` -/

/-- One inbound HTTP request as the handler observes it: method, URL
pathname, the `authorization` header (`none` embeds an absent header), and
the result of `JSON.parse` on the accumulated body (`none` embeds a body on
which `JSON.parse` throws). -/
structure HttpRequest where
  method : String
  path : String
  authorization : Option String
  bodyJson : Option Json

/-- One outbound HTTP response: status code, headers in the order written by
`writeHead`, and the body text (`none` embeds `res.end()` with no body). -/
structure HttpResponse where
  statusCode : Nat
  headers : List (String × String)
  body : Option String

/-- `sendJson(res, statusCode, data)`: write the content type, the three CORS
headers, and the serialized payload. -/
def sendJson (statusCode : Nat) (data : Json) : HttpResponse :=
  { statusCode := statusCode,
    headers := [("Content-Type", "application/json"),
      ("Access-Control-Allow-Origin", "*"),
      ("Access-Control-Allow-Methods", "POST, GET, OPTIONS"),
      ("Access-Control-Allow-Headers", "Content-Type, Authorization")],
    body := some (Json.stringify data) }

/-- `sendError(res, statusCode, message)`. -/
def sendError (statusCode : Nat) (message : String) : HttpResponse :=
  sendJson statusCode
    (Json.obj [("errors", Json.arr [Json.obj [("message", Json.str message)]])])

/-- `validateApiKey(req)` with the module-level `API_KEY` passed explicitly.
`API_KEY = process.env.API_KEY?.trim()`: an unset variable embeds as `none`;
`if (!API_KEY) return true` also accepts a value that trims to the empty
string.  A missing or empty `authorization` header fails; otherwise the
`Bearer ` prefix, when present, is stripped before comparison. -/
def validateApiKey (apiKeyEnv : Option String) (authorization : Option String) :
    Bool :=
  match apiKeyEnv.map jsTrim with
  | none => true
  | some apiKey =>
    if apiKey = "" then true
    else
      match authorization with
      | none => false
      | some authHeader =>
        if authHeader = "" then false
        else
          let token := if jsStartsWith authHeader "Bearer "
            then jsSlice authHeader 7 else authHeader
          token == apiKey

/-- `parseRequestBody(req)` after the body has been read: resolve with the
parsed JSON, or reject with `Invalid JSON body` when `JSON.parse` throws. -/
def parseRequestBody (bodyJson : Option Json) : Except String Json :=
  match bodyJson with
  | some parsed => Except.ok parsed
  | none => Except.error "Invalid JSON body"

/-- Message of the `TypeError` thrown by `const \x7b query, variables \x7d = body`
when the parsed body is `null`.  The exact runtime text is engine-specific;
it is modelled as this fixed string, which no claim inspects. -/
def destructureNullMessage : String :=
  "Cannot destructure property \x27query\x27 of parsed body as it is null"

/-- The test `!query || typeof query !== "string"` of the handler, packaged:
`some q` exactly when the `query` field holds a truthy string, i.e. a
non-empty string. -/
def queryStringOf : Option Json → Option String
  | some (Json.str s) => if s = "" then none else some s
  | _ => none

/-- `handleGraphQLRequest(req, res, config)`: reject with 401 on a failed
API-key check; then parse the body inside `try`, where a rejected
`parseRequestBody` and a `null` body both land in the `catch` and answer 500;
a missing, non-string or empty `query` field answers 400; otherwise run the
orchestration, answering `200 \x7b data \x7d` on success and 500 with the error
message on failure.  The second component is the platform traffic issued. -/
def handleGraphQLRequest (apiKeyEnv : Option String) (config : ShopifyConfig)
    (scopesReply : ScopesReply) (queryReply : QueryReply)
    (req : HttpRequest) : HttpResponse × List CallEvent :=
  if !validateApiKey apiKeyEnv req.authorization then
    (sendError 401 "Unauthorized: Invalid or missing API key", [])
  else
    match parseRequestBody req.bodyJson with
    | Except.error msg => (sendError 500 msg, [])
    | Except.ok parsed =>
      if parsed.isNull then
        (sendError 500 destructureNullMessage, [])
      else
        match queryStringOf (jsonGet parsed "query") with
        | none => (sendError 400 "Missing or invalid \x27query\x27 field", [])
        | some query =>
          match validateAndQuery config query (jsonGet parsed "variables")
              scopesReply queryReply with
          | (Except.ok data, events) =>
            (sendJson 200 (Json.obj [("data", data)]), events)
          | (Except.error msg, events) => (sendError 500 msg, events)

/-- `handleHealthCheck(res)`. -/
def handleHealthCheck : HttpResponse :=
  sendJson 200 (Json.obj
    [("status", Json.str "ok"), ("service", Json.str "shopify-graphql-proxy")])

/-- `handleIntrospection(res)`: the fixed introspection stub. -/
def handleIntrospection : HttpResponse :=
  sendJson 200 (Json.obj [("data", Json.obj [("__schema", Json.obj
    [("description", Json.str "Shopify Admin GraphQL API Proxy"),
     ("queryType", Json.obj [("name", Json.str "QueryRoot")]),
     ("mutationType", Json.obj [("name", Json.str "Mutation")]),
     ("types", Json.arr [])])])])

/-- The `204` CORS preflight response of the server callback. -/
def preflightResponse : HttpResponse :=
  { statusCode := 204,
    headers := [("Access-Control-Allow-Origin", "*"),
      ("Access-Control-Allow-Methods", "POST, GET, OPTIONS"),
      ("Access-Control-Allow-Headers", "Content-Type, Authorization"),
      ("Access-Control-Max-Age", "86400")],
    body := none }

/-- The request callback installed by `main` with `http.createServer`:
`OPTIONS` answers the preflight; `/` and `/health` answer the liveness
payload; `/graphql` dispatches on the method (POST → handler, GET →
introspection stub, otherwise 405); every other path answers 404.  The second
component is the platform traffic issued while answering. -/
def routeRequest (apiKeyEnv : Option String) (config : ShopifyConfig)
    (scopesReply : ScopesReply) (queryReply : QueryReply)
    (req : HttpRequest) : HttpResponse × List CallEvent :=
  if req.method = "OPTIONS" then
    (preflightResponse, [])
  else if req.path = "/health" ∨ req.path = "/" then
    (handleHealthCheck, [])
  else if req.path = "/graphql" then
    if req.method = "POST" then
      handleGraphQLRequest apiKeyEnv config scopesReply queryReply req
    else if req.method = "GET" then
      (handleIntrospection, [])
    else
      (sendError 405 "Method not allowed. Use POST for GraphQL queries.", [])
  else
    (sendError 404 "Not found. Use /graphql endpoint for GraphQL queries.", [])

/-! ## Theorems -/

/-- Bridging the `Set.has` membership test of the source (embedded as
`List.contains`) with propositional membership. -/
theorem contains_eq_mem_decide (l : List String) (s : String) :
    l.contains s = decide (s ∈ l) := by
  simp [List.contains, List.elem_eq_mem]

/-- C1: for every required-scope list and every granted-scope list returned
by the platform, `getMissingScopes` returns exactly the subsequence of the
required list whose entries are not members of the granted set (each granted
entry trimmed, empty entries discarded), preserving the order of the
required list; it returns the empty sequence exactly when every required
scope is granted. -/
theorem getMissingScopes_set_difference (reply : ScopesReply)
    (requiredScopes : List String) (hok : reply.ok = true) :
    getMissingScopes reply requiredScopes =
      Except.ok (requiredScopes.filter
        (fun scope => decide (scope ∉ grantedScopes reply.accessScopeHandles))) ∧
    List.Sublist
      (requiredScopes.filter
        (fun scope => decide (scope ∉ grantedScopes reply.accessScopeHandles)))
      requiredScopes ∧
    (getMissingScopes reply requiredScopes = Except.ok [] ↔
      ∀ scope ∈ requiredScopes, scope ∈ grantedScopes reply.accessScopeHandles) := by
  have hfilter : requiredScopes.filter
      (fun scope => !(grantedScopes reply.accessScopeHandles).contains scope) =
      requiredScopes.filter
      (fun scope => decide (scope ∉ grantedScopes reply.accessScopeHandles)) := by
    apply List.filter_congr
    intro s _
    simp [contains_eq_mem_decide]
  have hval : getMissingScopes reply requiredScopes =
      Except.ok (requiredScopes.filter
        (fun scope => decide (scope ∉ grantedScopes reply.accessScopeHandles))) := by
    rw [getMissingScopes, if_pos hok, hfilter]
  refine ⟨hval, List.filter_sublist requiredScopes, ?_⟩
  rw [hval]
  simp [List.filter_eq_nil_iff]

/-- Instantiation of C1 on the scenario of the spec: required
`read_orders, read_products`, granted (untrimmed) `read_products`. -/
theorem getMissingScopes_set_difference_witness :
    (ScopesReply.mk true 200 "OK" "" [" read_products "]).ok = true ∧
    (getMissingScopes (ScopesReply.mk true 200 "OK" "" [" read_products "])
        ["read_orders", "read_products"] =
      Except.ok ((["read_orders", "read_products"] : List String).filter
        (fun scope => decide (scope ∉ grantedScopes [" read_products "]))) ∧
    List.Sublist
      ((["read_orders", "read_products"] : List String).filter
        (fun scope => decide (scope ∉ grantedScopes [" read_products "])))
      ["read_orders", "read_products"] ∧
    (getMissingScopes (ScopesReply.mk true 200 "OK" "" [" read_products "])
        ["read_orders", "read_products"] = Except.ok [] ↔
      ∀ scope ∈ (["read_orders", "read_products"] : List String),
        scope ∈ grantedScopes [" read_products "])) :=
  ⟨rfl, getMissingScopes_set_difference _ _ rfl⟩

/-- The trace of platform calls of one orchestration run always starts with
the scope introspection, and the forwarding call, when present, comes after
it. -/
theorem validateAndQuery_trace_shape (config : ShopifyConfig) (query : String)
    (vars : Option Json) (scopesReply : ScopesReply) (queryReply : QueryReply) :
    (validateAndQuery config query vars scopesReply queryReply).2 =
      [CallEvent.scopeIntrospection] ∨
    (validateAndQuery config query vars scopesReply queryReply).2 =
      [CallEvent.scopeIntrospection, CallEvent.graphqlForward] := by
  rw [validateAndQuery]
  cases h : getMissingScopes scopesReply (getRequiredScopes config.scopes) with
  | error e => exact Or.inl rfl
  | ok missing =>
    by_cases hlen : missing.length > 0
    · simp [hlen]
    · simp [hlen]

/-- C2: the scope check runs before any query forwarding, and whenever it
reports at least one missing scope the orchestration fails with the
authorization error enumerating the missing scopes and never issues the
forwarding call. -/
theorem validateAndQuery_scope_gate (config : ShopifyConfig) (query : String)
    (vars : Option Json) (scopesReply : ScopesReply) (queryReply : QueryReply)
    (missing : List String)
    (hscope : getMissingScopes scopesReply (getRequiredScopes config.scopes) =
      Except.ok missing)
    (hne : missing ≠ []) :
    validateAndQuery config query vars scopesReply queryReply =
      (Except.error ("Shopify 应用缺少以下授权：" ++ jsJoin ", " missing
        ++ "。请重新安装应用以授予这些 scope。"),
       [CallEvent.scopeIntrospection]) ∧
    CallEvent.graphqlForward ∉
      (validateAndQuery config query vars scopesReply queryReply).2 ∧
    (∀ (c : ShopifyConfig) (q : String) (v : Option Json) (sr : ScopesReply)
        (qr : QueryReply),
      (validateAndQuery c q v sr qr).2.head? = some CallEvent.scopeIntrospection) := by
  have hlen : missing.length > 0 := List.length_pos.mpr hne
  have hval : validateAndQuery config query vars scopesReply queryReply =
      (Except.error ("Shopify 应用缺少以下授权：" ++ jsJoin ", " missing
        ++ "。请重新安装应用以授予这些 scope。"),
       [CallEvent.scopeIntrospection]) := by
    rw [validateAndQuery, hscope]
    simp [hlen]
  refine ⟨hval, ?_, ?_⟩
  · rw [hval]
    simp
  · intro c q v sr qr
    rcases validateAndQuery_trace_shape c q v sr qr with h | h <;> rw [h] <;> rfl

/-- Instantiation of C2 on the end-to-end scenario of the spec: required
scopes `read_orders,read_products`, granted scopes `read_products`, so
`read_orders` is missing, the orchestration fails with the authorization
error naming it, and no forwarding call is issued. -/
theorem validateAndQuery_scope_gate_witness :
    getMissingScopes (ScopesReply.mk true 200 "OK" "" ["read_products"])
      (getRequiredScopes (ShopifyConfig.mk "demo.myshop.test" "token" none
        (some "read_orders,read_products")).scopes) =
      Except.ok ["read_orders"] ∧
    (["read_orders"] : List String) ≠ [] ∧
    (validateAndQuery
        (ShopifyConfig.mk "demo.myshop.test" "token" none
          (some "read_orders,read_products"))
        "query \x7b shop \x7b name \x7d \x7d" none
        (ScopesReply.mk true 200 "OK" "" ["read_products"])
        (QueryReply.mk true 200 "OK" "" Json.null) =
      (Except.error ("Shopify 应用缺少以下授权：" ++ jsJoin ", " ["read_orders"]
        ++ "。请重新安装应用以授予这些 scope。"),
       [CallEvent.scopeIntrospection]) ∧
    CallEvent.graphqlForward ∉
      (validateAndQuery
        (ShopifyConfig.mk "demo.myshop.test" "token" none
          (some "read_orders,read_products"))
        "query \x7b shop \x7b name \x7d \x7d" none
        (ScopesReply.mk true 200 "OK" "" ["read_products"])
        (QueryReply.mk true 200 "OK" "" Json.null)).2 ∧
    (∀ (c : ShopifyConfig) (q : String) (v : Option Json) (sr : ScopesReply)
        (qr : QueryReply),
      (validateAndQuery c q v sr qr).2.head? = some CallEvent.scopeIntrospection)) :=
  ⟨rfl, by decide, validateAndQuery_scope_gate _ _ _ _ _ _ rfl (by decide)⟩

/-- Shared success-path lemma for `runShopifyQuery`: on a success-status
reply whose parsed body is not `null` and whose `errors` field is absent or
falsy, the call returns `data.data ?? data`. -/
theorem runShopifyQuery_no_failing_errors (reply : QueryReply)
    (hok : reply.ok = true) (hnn : reply.json.isNull = false)
    (hnoerr : ∀ e, jsonGet reply.json "errors" = some e → e.truthy = false) :
    runShopifyQuery reply =
      Except.ok (jsNullish (jsonGet reply.json "data") reply.json) := by
  rw [runShopifyQuery, if_pos hok]
  cases h : jsonGet reply.json "errors" with
  | none => simp [hnn, h]
  | some e => simp [hnn, h, hnoerr e h]

/-- Shared null-body lemma for `runShopifyQuery`: on a success-status reply
whose parsed body is JSON `null`, the `data.errors` access throws. -/
theorem runShopifyQuery_null_body (reply : QueryReply) (hok : reply.ok = true)
    (hnn : reply.json.isNull = true) :
    runShopifyQuery reply = Except.error errorsAccessNullMessage := by
  rw [runShopifyQuery, if_pos hok]
  simp [hnn]

/-- C3 counterexample: a success-status response whose `errors` list is
present but empty ("[]" is truthy in JavaScript) makes `runShopifyQuery`
fail even though the errors list is empty and `data` is present, so the
"absent or empty errors list does not fail" direction of the claim is false
on the code. -/
theorem runShopifyQuery_empty_errors_counterexample :
    runShopifyQuery (QueryReply.mk true 200 "OK" ""
        (Json.obj [("data", Json.str "x"), ("errors", Json.arr [])])) =
      Except.error "Shopify GraphQL errors: []" ∧
    (∀ d, runShopifyQuery (QueryReply.mk true 200 "OK" ""
        (Json.obj [("data", Json.str "x"), ("errors", Json.arr [])])) ≠
      Except.ok d) :=
  ⟨rfl, fun _ h => Except.noConfusion h⟩

/-- C3 amended: on a success-status response, `runShopifyQuery` fails
exactly when the parsed body is JSON `null` (the `data.errors` access throws
a `TypeError`) or the `errors` field is present with a truthy value — which
includes every array, the empty one too; a failure through a present truthy
`errors` field carries the serialized list; when the body is not `null` and
the field is absent or falsy (e.g. `null`), the call does not fail and
returns `data.data ?? data`. -/
theorem runShopifyQuery_errors_characterization (reply : QueryReply)
    (hok : reply.ok = true) :
    ((∃ msg, runShopifyQuery reply = Except.error msg) ↔
      (reply.json.isNull = true ∨
        ∃ e, jsonGet reply.json "errors" = some e ∧ e.truthy = true)) ∧
    (∀ e, jsonGet reply.json "errors" = some e → e.truthy = true →
      runShopifyQuery reply =
        Except.error ("Shopify GraphQL errors: " ++ Json.stringify e)) ∧
    (reply.json.isNull = false →
      (∀ e, jsonGet reply.json "errors" = some e → e.truthy = false) →
      runShopifyQuery reply =
        Except.ok (jsNullish (jsonGet reply.json "data") reply.json)) := by
  have herr : ∀ e, jsonGet reply.json "errors" = some e → e.truthy = true →
      runShopifyQuery reply =
        Except.error ("Shopify GraphQL errors: " ++ Json.stringify e) := by
    intro e he htr
    have hnn : reply.json.isNull = false := by
      cases hj : reply.json
      case null => rw [hj] at he; simp [jsonGet] at he
      all_goals rfl
    rw [runShopifyQuery, if_pos hok]
    simp [hnn, he, htr]
  refine ⟨⟨?_, ?_⟩, herr, runShopifyQuery_no_failing_errors reply hok⟩
  · intro ⟨msg, hmsg⟩
    cases hnn : reply.json.isNull with
    | true => exact Or.inl rfl
    | false =>
      refine Or.inr ?_
      cases h : jsonGet reply.json "errors" with
      | none =>
        rw [runShopifyQuery_no_failing_errors reply hok hnn
          (by intro e he; rw [h] at he; cases he)] at hmsg
        cases hmsg
      | some e =>
        refine ⟨e, rfl, ?_⟩
        by_contra htr
        rw [runShopifyQuery_no_failing_errors reply hok hnn
          (by intro x hx; rw [h] at hx; cases hx; simpa using htr)] at hmsg
        cases hmsg
  · intro h
    rcases h with hnn | ⟨e, he, htr⟩
    · exact ⟨errorsAccessNullMessage, runShopifyQuery_null_body reply hok hnn⟩
    · exact ⟨_, herr e he htr⟩

/-- Instantiation of C3 amended: a response carrying both `data` and a
non-empty `errors` list fails with the serialized list. -/
theorem runShopifyQuery_errors_characterization_witness :
    (QueryReply.mk true 200 "OK" ""
        (Json.obj [("data", Json.str "partial"),
          ("errors", Json.arr [Json.obj [("message", Json.str "boom")]])])).ok
      = true ∧
    (((∃ msg, runShopifyQuery (QueryReply.mk true 200 "OK" ""
        (Json.obj [("data", Json.str "partial"),
          ("errors", Json.arr [Json.obj [("message", Json.str "boom")]])])) =
        Except.error msg) ↔
      ((Json.obj [("data", Json.str "partial"),
          ("errors",
            Json.arr [Json.obj [("message", Json.str "boom")]])]).isNull =
          true ∨
        ∃ e, jsonGet (Json.obj [("data", Json.str "partial"),
          ("errors", Json.arr [Json.obj [("message", Json.str "boom")]])])
          "errors" = some e ∧ e.truthy = true)) ∧
    (∀ e, jsonGet (Json.obj [("data", Json.str "partial"),
          ("errors", Json.arr [Json.obj [("message", Json.str "boom")]])])
        "errors" = some e → e.truthy = true →
      runShopifyQuery (QueryReply.mk true 200 "OK" ""
        (Json.obj [("data", Json.str "partial"),
          ("errors", Json.arr [Json.obj [("message", Json.str "boom")]])])) =
        Except.error ("Shopify GraphQL errors: " ++ Json.stringify e)) ∧
    ((Json.obj [("data", Json.str "partial"),
          ("errors",
            Json.arr [Json.obj [("message", Json.str "boom")]])]).isNull =
        false →
      (∀ e, jsonGet (Json.obj [("data", Json.str "partial"),
          ("errors", Json.arr [Json.obj [("message", Json.str "boom")]])])
        "errors" = some e → e.truthy = false) →
      runShopifyQuery (QueryReply.mk true 200 "OK" ""
        (Json.obj [("data", Json.str "partial"),
          ("errors", Json.arr [Json.obj [("message", Json.str "boom")]])])) =
        Except.ok (jsNullish (jsonGet (Json.obj [("data", Json.str "partial"),
          ("errors", Json.arr [Json.obj [("message", Json.str "boom")]])])
          "data")
          (Json.obj [("data", Json.str "partial"),
          ("errors", Json.arr [Json.obj [("message", Json.str "boom")]])])))) :=
  ⟨rfl, runShopifyQuery_errors_characterization _ rfl⟩

/-- C8 counterexample: a success-status response with no `errors` field whose
`data` field is present but `null` makes `runShopifyQuery` return the entire
parsed response rather than the value of the `data` field (`??` also falls
back on `null`, not only on an absent field). -/
theorem runShopifyQuery_null_data_counterexample :
    runShopifyQuery (QueryReply.mk true 200 "OK" ""
        (Json.obj [("data", Json.null)])) =
      Except.ok (Json.obj [("data", Json.null)]) ∧
    jsonGet (Json.obj [("data", Json.null)]) "data" = some Json.null ∧
    Json.obj [("data", Json.null)] ≠ Json.null :=
  ⟨rfl, rfl, fun h => Json.noConfusion h⟩

/-- C8 amended: on a success-status response with no failing errors list,
when the parsed body is not `null`, `runShopifyQuery` returns the value of
the `data` field when that field is present and non-null, and returns the
entire parsed response object unchanged when the field is absent or `null`,
applying no other transformation; when the parsed body is JSON `null`, the
call instead fails through the `TypeError` of the `data.errors` access. -/
theorem runShopifyQuery_data_fallback (reply : QueryReply)
    (hok : reply.ok = true)
    (hnoerr : ∀ e, jsonGet reply.json "errors" = some e → e.truthy = false) :
    (reply.json.isNull = false →
      (∀ d, jsonGet reply.json "data" = some d → d.isNull = false →
        runShopifyQuery reply = Except.ok d) ∧
      (jsonGet reply.json "data" = none ∨
          jsonGet reply.json "data" = some Json.null →
        runShopifyQuery reply = Except.ok reply.json)) ∧
    (reply.json.isNull = true →
      runShopifyQuery reply = Except.error errorsAccessNullMessage) := by
  refine ⟨?_, runShopifyQuery_null_body reply hok⟩
  intro hnn
  have hbase := runShopifyQuery_no_failing_errors reply hok hnn hnoerr
  constructor
  · intro d hd hnull
    rw [hbase, hd, jsNullish, hnull]
    rfl
  · intro h
    rcases h with h | h <;> rw [hbase, h] <;> rfl

/-- Instantiation of C8 amended on a response with a present, non-null
`data` field. -/
theorem runShopifyQuery_data_fallback_witness :
    (QueryReply.mk true 200 "OK" ""
        (Json.obj [("data", Json.str "payload")])).ok = true ∧
    (∀ e, jsonGet (Json.obj [("data", Json.str "payload")]) "errors" = some e →
      e.truthy = false) ∧
    (((Json.obj [("data", Json.str "payload")]).isNull = false →
      (∀ d, jsonGet (Json.obj [("data", Json.str "payload")]) "data" =
          some d → d.isNull = false →
        runShopifyQuery (QueryReply.mk true 200 "OK" ""
          (Json.obj [("data", Json.str "payload")])) = Except.ok d) ∧
      (jsonGet (Json.obj [("data", Json.str "payload")]) "data" = none ∨
          jsonGet (Json.obj [("data", Json.str "payload")]) "data" =
            some Json.null →
        runShopifyQuery (QueryReply.mk true 200 "OK" ""
          (Json.obj [("data", Json.str "payload")])) =
          Except.ok (Json.obj [("data", Json.str "payload")]))) ∧
    ((Json.obj [("data", Json.str "payload")]).isNull = true →
      runShopifyQuery (QueryReply.mk true 200 "OK" ""
        (Json.obj [("data", Json.str "payload")])) =
        Except.error errorsAccessNullMessage)) :=
  ⟨rfl, (by intro e he; simp [jsonGet, lookupLast] at he),
   runShopifyQuery_data_fallback
     (QueryReply.mk true 200 "OK" "" (Json.obj [("data", Json.str "payload")]))
     rfl (by intro e he; simp [jsonGet, lookupLast] at he)⟩

/-- Modelled from the spec: the required-scope parse described by the data
model — "parsed by splitting on commas, trimming whitespace, and discarding
empty entries" — written from the spec words for comparison with
`getRequiredScopes`. -/
def requiredScopesOfSpec (s : String) : List String :=
  ((jsSplit s ',').map jsTrim).filter (fun entry => entry != "")

/-- C5 counterexample: the parse performs no deduplication, so a
configuration string that repeats a scope yields a sequence with duplicate
entries, refuting the distinctness part of the claim. -/
theorem getRequiredScopes_duplicates_counterexample :
    getRequiredScopes (some "read_orders,read_orders") =
      ["read_orders", "read_orders"] ∧
    ¬ (getRequiredScopes (some "read_orders,read_orders")).Nodup :=
  ⟨rfl, by decide⟩

/-- C5 amended: the required-scope list is computed by splitting the
configured string (default applied first) on commas, trimming each entry and
discarding empty entries — exactly the parse the spec describes — but the
entries need not be distinct: duplicates in the input are preserved. -/
theorem getRequiredScopes_parse (scopesEnv : Option String) :
    getRequiredScopes scopesEnv =
      requiredScopesOfSpec (scopesEnv.getD DEFAULT_SCOPES) ∧
    ∀ scope ∈ getRequiredScopes scopesEnv, scope ≠ "" := by
  refine ⟨rfl, ?_⟩
  intro scope hs
  simp only [getRequiredScopes, List.mem_filter, bne_iff_ne, ne_eq] at hs
  exact hs.2

/-- Instantiation of C5 amended on a configured override with stray
whitespace and an empty entry. -/
theorem getRequiredScopes_parse_witness :
    getRequiredScopes (some " read_orders , ,read_products ") =
      requiredScopesOfSpec
        ((some " read_orders , ,read_products ").getD DEFAULT_SCOPES) ∧
    ∀ scope ∈ getRequiredScopes (some " read_orders , ,read_products "),
      scope ≠ "" :=
  getRequiredScopes_parse (some " read_orders , ,read_products ")

/-- C4 counterexample: a `POST /graphql` request that passes the
shared-secret check (no secret configured) and whose body is not parseable
JSON is answered with status 500, not 400 — the platform is indeed never
contacted, but the claimed status is wrong. -/
theorem graphql_invalid_json_counterexample :
    (handleGraphQLRequest none
        (ShopifyConfig.mk "demo.myshop.test" "token" none none)
        (ScopesReply.mk true 200 "OK" "" [])
        (QueryReply.mk true 200 "OK" "" Json.null)
        (HttpRequest.mk "POST" "/graphql" none none)).1.statusCode = 500 ∧
    (handleGraphQLRequest none
        (ShopifyConfig.mk "demo.myshop.test" "token" none none)
        (ScopesReply.mk true 200 "OK" "" [])
        (QueryReply.mk true 200 "OK" "" Json.null)
        (HttpRequest.mk "POST" "/graphql" none none)).1.statusCode ≠ 400 ∧
    (handleGraphQLRequest none
        (ShopifyConfig.mk "demo.myshop.test" "token" none none)
        (ScopesReply.mk true 200 "OK" "" [])
        (QueryReply.mk true 200 "OK" "" Json.null)
        (HttpRequest.mk "POST" "/graphql" none none)).2 = [] :=
  ⟨rfl, by decide, rfl⟩

/-- C4 amended: for a request that passes the shared-secret check, a body on
which `JSON.parse` throws is answered 500 with the `Invalid JSON body`
errors payload, a body that parses to `null` is answered 500 through the
destructuring `TypeError`, and a body that parses to anything else but whose
`query` field is missing, not a string, or empty is answered 400 with the
`Missing or invalid query field` errors payload; in each case the platform
is never contacted. -/
theorem graphql_bad_body_handling (apiKeyEnv : Option String)
    (config : ShopifyConfig) (scopesReply : ScopesReply)
    (queryReply : QueryReply) (req : HttpRequest)
    (hauth : validateApiKey apiKeyEnv req.authorization = true) :
    (req.bodyJson = none →
      handleGraphQLRequest apiKeyEnv config scopesReply queryReply req =
        (sendError 500 "Invalid JSON body", [])) ∧
    (req.bodyJson = some Json.null →
      handleGraphQLRequest apiKeyEnv config scopesReply queryReply req =
        (sendError 500 destructureNullMessage, [])) ∧
    (∀ parsed, req.bodyJson = some parsed → parsed.isNull = false →
      queryStringOf (jsonGet parsed "query") = none →
      handleGraphQLRequest apiKeyEnv config scopesReply queryReply req =
        (sendError 400 "Missing or invalid \x27query\x27 field", [])) := by
  refine ⟨?_, ?_, ?_⟩
  · intro hbody
    simp [handleGraphQLRequest, hauth, hbody, parseRequestBody]
  · intro hbody
    simp [handleGraphQLRequest, hauth, hbody, parseRequestBody, Json.isNull]
  · intro parsed hbody hnull hq
    simp [handleGraphQLRequest, hauth, hbody, parseRequestBody, hnull, hq]

/-- Instantiation of C4 amended on a request with an unparseable body and no
configured secret. -/
theorem graphql_bad_body_handling_witness :
    validateApiKey none
      (HttpRequest.mk "POST" "/graphql" none none).authorization = true ∧
    ((HttpRequest.mk "POST" "/graphql" none none).bodyJson = none →
      handleGraphQLRequest none
        (ShopifyConfig.mk "demo.myshop.test" "token" none none)
        (ScopesReply.mk true 200 "OK" "" [])
        (QueryReply.mk true 200 "OK" "" Json.null)
        (HttpRequest.mk "POST" "/graphql" none none) =
        (sendError 500 "Invalid JSON body", [])) :=
  ⟨rfl,
   (graphql_bad_body_handling none
     (ShopifyConfig.mk "demo.myshop.test" "token" none none)
     (ScopesReply.mk true 200 "OK" "" [])
     (QueryReply.mk true 200 "OK" "" Json.null)
     (HttpRequest.mk "POST" "/graphql" none none) rfl).1⟩

/-- Appending never disturbs `startsWith`: `pre ++ s` starts with `pre`. -/
theorem jsStartsWith_append (pre s : String) :
    jsStartsWith (pre ++ s) pre = true := by
  simp [jsStartsWith, String.data_append, List.isPrefixOf_iff_prefix]

/-- Slicing off the seven characters of `Bearer ` from `"Bearer " ++ t`
recovers `t`. -/
theorem jsSlice_bearer (t : String) : jsSlice ("Bearer " ++ t) 7 = t := by
  show String.mk (("Bearer " ++ t).data.drop 7) = t
  rw [String.data_append]
  have h7 : ("Bearer " : String).data.length = 7 := rfl
  rw [← h7, List.drop_left]

/-- Characterization of a configured API-key check: with a secret that trims
to a non-empty string, a request is accepted exactly when it carries an
`authorization` header whose Bearer-stripped token equals the trimmed
secret. -/
theorem validateApiKey_configured (k : String) (hk : jsTrim k ≠ "")
    (auth : Option String) :
    validateApiKey (some k) auth = true ↔
      ∃ hdr, auth = some hdr ∧
        (if jsStartsWith hdr "Bearer " then jsSlice hdr 7 else hdr) = jsTrim k := by
  cases auth with
  | none =>
    simp [validateApiKey, hk]
  | some hdr =>
    by_cases hempty : hdr = ""
    · subst hempty
      simp [validateApiKey, hk, jsStartsWith, jsSlice]
      intro h
      exact absurd h.symm hk
    · simp [validateApiKey, hk, hempty]

/-- C9 counterexample: with the secret `Bearer x` configured, the bare
secret string sent as the `Authorization` value is rejected (its own
`Bearer ` prefix is stripped before comparison), so the two claimed forms do
not authenticate equally for every secret. -/
theorem bearer_prefixed_secret_counterexample :
    jsTrim "Bearer x" = "Bearer x" ∧
    validateApiKey (some "Bearer x") (some "Bearer x") = false ∧
    validateApiKey (some "Bearer x") (some "Bearer Bearer x") = true :=
  ⟨rfl, rfl, rfl⟩

/-- C9 amended: a header value is accepted exactly when its Bearer-stripped
token equals the trimmed secret; hence the `Bearer <secret>` form always
authenticates, the bare form authenticates exactly when the secret itself
does not start with `Bearer `, a missing header is rejected, and any other
value is rejected. -/
theorem validateApiKey_bearer_or_bare (k : String) (hk : jsTrim k ≠ "") :
    (∀ hdr, validateApiKey (some k) (some hdr) = true ↔
      (if jsStartsWith hdr "Bearer " then jsSlice hdr 7 else hdr) = jsTrim k) ∧
    validateApiKey (some k) none = false ∧
    validateApiKey (some k) (some ("Bearer " ++ jsTrim k)) = true ∧
    (jsStartsWith (jsTrim k) "Bearer " = false →
      validateApiKey (some k) (some (jsTrim k)) = true) := by
  refine ⟨?_, ?_, ?_, ?_⟩
  · intro hdr
    rw [validateApiKey_configured k hk (some hdr)]
    constructor
    · intro ⟨hdr', heq, htok⟩
      cases heq
      exact htok
    · intro htok
      exact ⟨hdr, rfl, htok⟩
  · simp [validateApiKey, hk]
  · rw [validateApiKey_configured k hk]
    refine ⟨"Bearer " ++ jsTrim k, rfl, ?_⟩
    rw [if_pos (jsStartsWith_append "Bearer " (jsTrim k)), jsSlice_bearer]
  · intro hstart
    rw [validateApiKey_configured k hk]
    exact ⟨jsTrim k, rfl, by rw [if_neg (by simp [hstart])]⟩

/-- Instantiation of C9 amended with the secret `secret123`: both header
forms authenticate. -/
theorem validateApiKey_bearer_or_bare_witness :
    jsTrim "secret123" ≠ "" ∧
    ((∀ hdr, validateApiKey (some "secret123") (some hdr) = true ↔
      (if jsStartsWith hdr "Bearer " then jsSlice hdr 7 else hdr) =
        jsTrim "secret123") ∧
    validateApiKey (some "secret123") none = false ∧
    validateApiKey (some "secret123")
      (some ("Bearer " ++ jsTrim "secret123")) = true ∧
    (jsStartsWith (jsTrim "secret123") "Bearer " = false →
      validateApiKey (some "secret123") (some (jsTrim "secret123")) = true)) :=
  ⟨by decide, validateApiKey_bearer_or_bare "secret123" (by decide)⟩

/-- A `POST /graphql` request is dispatched to the GraphQL handler. -/
theorem routeRequest_post_graphql (apiKeyEnv : Option String)
    (config : ShopifyConfig) (scopesReply : ScopesReply)
    (queryReply : QueryReply) (req : HttpRequest)
    (hmethod : req.method = "POST") (hpath : req.path = "/graphql") :
    routeRequest apiKeyEnv config scopesReply queryReply req =
      handleGraphQLRequest apiKeyEnv config scopesReply queryReply req := by
  simp [routeRequest, hmethod, hpath]

/-- C6: when a secret is configured (non-empty after trimming), a
`POST /graphql` request whose `Authorization` header is missing or whose
Bearer-stripped token differs from the trimmed secret is answered 401 with
the errors payload and no platform call; a request that passes the check and
carries a valid body whose orchestration succeeds is answered 200 with the
result under `data`; and with no secret configured every request passes the
check. -/
theorem graphql_shared_secret (apiKeyEnv : Option String) (k : String)
    (config : ShopifyConfig) (scopesReply : ScopesReply)
    (queryReply : QueryReply) (req : HttpRequest)
    (hmethod : req.method = "POST") (hpath : req.path = "/graphql") :
    (apiKeyEnv = some k → jsTrim k ≠ "" →
      (req.authorization = none ∨
        (∃ hdr, req.authorization = some hdr ∧
          (if jsStartsWith hdr "Bearer " then jsSlice hdr 7 else hdr) ≠
            jsTrim k)) →
      routeRequest apiKeyEnv config scopesReply queryReply req =
        (sendError 401 "Unauthorized: Invalid or missing API key", [])) ∧
    (validateApiKey apiKeyEnv req.authorization = true →
      ∀ parsed q d events, req.bodyJson = some parsed →
        queryStringOf (jsonGet parsed "query") = some q →
        validateAndQuery config q (jsonGet parsed "variables") scopesReply
          queryReply = (Except.ok d, events) →
        routeRequest apiKeyEnv config scopesReply queryReply req =
          (sendJson 200 (Json.obj [("data", d)]), events)) ∧
    (apiKeyEnv = none → ∀ auth, validateApiKey none auth = true) := by
  have hroute := routeRequest_post_graphql apiKeyEnv config scopesReply
    queryReply req hmethod hpath
  refine ⟨?_, ?_, ?_⟩
  · rintro rfl hk hbad
    have hfalse : validateApiKey (some k) req.authorization = false := by
      cases hv : validateApiKey (some k) req.authorization
      · rfl
      · exfalso
        obtain ⟨hdr, hauth, htok⟩ :=
          (validateApiKey_configured k hk req.authorization).mp hv
        rcases hbad with hnone | ⟨hdr', hauth', hne⟩
        · rw [hnone] at hauth
          cases hauth
        · rw [hauth'] at hauth
          injection hauth with h
          exact hne (h ▸ htok)
    rw [hroute]
    simp [handleGraphQLRequest, hfalse]
  · intro hv parsed q d events hbody hq hrun
    have hnotnull : parsed.isNull = false := by
      cases parsed
      case null => simp [jsonGet, queryStringOf] at hq
      all_goals rfl
    rw [hroute]
    simp [handleGraphQLRequest, hv, hbody, parseRequestBody, hnotnull, hq, hrun]
  · intro _ auth
    rfl

/-- Instantiation of C6 on a configured secret `secret123`, a request
carrying `Bearer secret123` and the body `\x7b"query": "query ..."\x7d`, and a
platform granting every default scope. -/
theorem graphql_shared_secret_witness :
    (HttpRequest.mk "POST" "/graphql" (some "Bearer secret123")
      (some (Json.obj [("query",
        Json.str "query \x7b shop \x7b name \x7d \x7d")]))).method = "POST" ∧
    (HttpRequest.mk "POST" "/graphql" (some "Bearer secret123")
      (some (Json.obj [("query",
        Json.str "query \x7b shop \x7b name \x7d \x7d")]))).path = "/graphql" ∧
    validateApiKey (some "secret123")
      (HttpRequest.mk "POST" "/graphql" (some "Bearer secret123")
        (some (Json.obj [("query",
          Json.str "query \x7b shop \x7b name \x7d \x7d")]))).authorization =
      true ∧
    routeRequest (some "secret123")
      (ShopifyConfig.mk "demo.myshop.test" "token" none
        (some "read_orders,read_products"))
      (ScopesReply.mk true 200 "OK" "" ["read_orders", "read_products"])
      (QueryReply.mk true 200 "OK" ""
        (Json.obj [("data", Json.obj [("shop",
          Json.obj [("name", Json.str "Test Shop")])])]))
      (HttpRequest.mk "POST" "/graphql" (some "Bearer secret123")
        (some (Json.obj [("query",
          Json.str "query \x7b shop \x7b name \x7d \x7d")]))) =
      (sendJson 200 (Json.obj [("data",
        Json.obj [("shop", Json.obj [("name", Json.str "Test Shop")])])]),
       [CallEvent.scopeIntrospection, CallEvent.graphqlForward]) :=
  ⟨rfl, rfl, rfl,
   ((graphql_shared_secret (some "secret123") "secret123"
      (ShopifyConfig.mk "demo.myshop.test" "token" none
        (some "read_orders,read_products"))
      (ScopesReply.mk true 200 "OK" "" ["read_orders", "read_products"])
      (QueryReply.mk true 200 "OK" ""
        (Json.obj [("data", Json.obj [("shop",
          Json.obj [("name", Json.str "Test Shop")])])]))
      (HttpRequest.mk "POST" "/graphql" (some "Bearer secret123")
        (some (Json.obj [("query",
          Json.str "query \x7b shop \x7b name \x7d \x7d")])))
      rfl rfl).2.1 rfl _ _ _ _ rfl rfl rfl)⟩

/-- C7 counterexample: a `POST` to `/health` is answered with the liveness
payload and status 200, not 405 — the router checks the path before the
method and never rejects a method on `/` or `/health`. -/
theorem health_post_counterexample :
    (routeRequest none (ShopifyConfig.mk "demo.myshop.test" "token" none none)
        (ScopesReply.mk true 200 "OK" "" [])
        (QueryReply.mk true 200 "OK" "" Json.null)
        (HttpRequest.mk "POST" "/health" none none)).1.statusCode = 200 ∧
    (routeRequest none (ShopifyConfig.mk "demo.myshop.test" "token" none none)
        (ScopesReply.mk true 200 "OK" "" [])
        (QueryReply.mk true 200 "OK" "" Json.null)
        (HttpRequest.mk "POST" "/health" none none)).1.statusCode ≠ 405 :=
  ⟨rfl, by decide⟩

/-- C7 amended: every non-`OPTIONS` request to a path other than `/`,
`/health` and `/graphql` is answered 404; a non-`OPTIONS`, non-`POST`,
non-`GET` method on `/graphql` is answered 405; but `/` and `/health` answer
the 200 liveness payload for every non-`OPTIONS` method — no 405 is issued
there. -/
theorem routing_unknown_path_method (apiKeyEnv : Option String)
    (config : ShopifyConfig) (scopesReply : ScopesReply)
    (queryReply : QueryReply) (req : HttpRequest) :
    (req.method ≠ "OPTIONS" → req.path ≠ "/" → req.path ≠ "/health" →
      req.path ≠ "/graphql" →
      routeRequest apiKeyEnv config scopesReply queryReply req =
        (sendError 404 "Not found. Use /graphql endpoint for GraphQL queries.",
         [])) ∧
    (req.method ≠ "OPTIONS" → req.path = "/graphql" → req.method ≠ "POST" →
      req.method ≠ "GET" →
      routeRequest apiKeyEnv config scopesReply queryReply req =
        (sendError 405 "Method not allowed. Use POST for GraphQL queries.",
         [])) ∧
    (req.method ≠ "OPTIONS" → (req.path = "/" ∨ req.path = "/health") →
      routeRequest apiKeyEnv config scopesReply queryReply req =
        (handleHealthCheck, []) ∧ handleHealthCheck.statusCode = 200) := by
  refine ⟨?_, ?_, ?_⟩
  · intro hm hp1 hp2 hp3
    simp [routeRequest, hm, hp1, hp2, hp3]
  · intro hm hp hpost hget
    simp [routeRequest, hm, hp, hpost, hget]
  · intro hm hp
    constructor
    · rcases hp with hp | hp <;> simp [routeRequest, hm, hp]
    · rfl

/-- Instantiation of C7 amended: `PUT /nope` answers 404 and `PUT /graphql`
answers 405. -/
theorem routing_unknown_path_method_witness :
    routeRequest none (ShopifyConfig.mk "demo.myshop.test" "token" none none)
      (ScopesReply.mk true 200 "OK" "" [])
      (QueryReply.mk true 200 "OK" "" Json.null)
      (HttpRequest.mk "PUT" "/nope" none none) =
      (sendError 404 "Not found. Use /graphql endpoint for GraphQL queries.",
       []) ∧
    routeRequest none (ShopifyConfig.mk "demo.myshop.test" "token" none none)
      (ScopesReply.mk true 200 "OK" "" [])
      (QueryReply.mk true 200 "OK" "" Json.null)
      (HttpRequest.mk "PUT" "/graphql" none none) =
      (sendError 405 "Method not allowed. Use POST for GraphQL queries.",
       []) :=
  ⟨(routing_unknown_path_method none
      (ShopifyConfig.mk "demo.myshop.test" "token" none none)
      (ScopesReply.mk true 200 "OK" "" [])
      (QueryReply.mk true 200 "OK" "" Json.null)
      (HttpRequest.mk "PUT" "/nope" none none)).1
    (by decide) (by decide) (by decide) (by decide),
   (routing_unknown_path_method none
      (ShopifyConfig.mk "demo.myshop.test" "token" none none)
      (ScopesReply.mk true 200 "OK" "" [])
      (QueryReply.mk true 200 "OK" "" Json.null)
      (HttpRequest.mk "PUT" "/graphql" none none)).2.1
    (by decide) rfl (by decide) (by decide)⟩

/-- Every response of the GraphQL handler is produced by `sendJson`. -/
theorem handleGraphQLRequest_sendJson (apiKeyEnv : Option String)
    (config : ShopifyConfig) (scopesReply : ScopesReply)
    (queryReply : QueryReply) (req : HttpRequest) :
    ∃ c d, (handleGraphQLRequest apiKeyEnv config scopesReply queryReply
      req).1 = sendJson c d := by
  unfold handleGraphQLRequest
  split
  · exact ⟨_, _, rfl⟩
  · split
    · exact ⟨_, _, rfl⟩
    · split
      · exact ⟨_, _, rfl⟩
      · split
        · exact ⟨_, _, rfl⟩
        · split
          · exact ⟨_, _, rfl⟩
          · exact ⟨_, _, rfl⟩

/-- Every response of the router is the CORS preflight response or is
produced by `sendJson`. -/
theorem routeRequest_response_shape (apiKeyEnv : Option String)
    (config : ShopifyConfig) (scopesReply : ScopesReply)
    (queryReply : QueryReply) (req : HttpRequest) :
    (routeRequest apiKeyEnv config scopesReply queryReply req).1 =
      preflightResponse ∨
    ∃ c d, (routeRequest apiKeyEnv config scopesReply queryReply req).1 =
      sendJson c d := by
  unfold routeRequest
  split
  · exact Or.inl rfl
  · split
    · exact Or.inr ⟨_, _, rfl⟩
    · split
      · split
        · exact Or.inr (handleGraphQLRequest_sendJson apiKeyEnv config
            scopesReply queryReply req)
        · split
          · exact Or.inr ⟨_, _, rfl⟩
          · exact Or.inr ⟨_, _, rfl⟩
      · exact Or.inr ⟨_, _, rfl⟩

/-- C10: every response the server sends — the success response, every error
response of any status, and the `OPTIONS` preflight alike — carries the
three CORS headers. -/
theorem responses_carry_cors (apiKeyEnv : Option String)
    (config : ShopifyConfig) (scopesReply : ScopesReply)
    (queryReply : QueryReply) (req : HttpRequest) :
    ("Access-Control-Allow-Origin", "*") ∈
      (routeRequest apiKeyEnv config scopesReply queryReply req).1.headers ∧
    ("Access-Control-Allow-Methods", "POST, GET, OPTIONS") ∈
      (routeRequest apiKeyEnv config scopesReply queryReply req).1.headers ∧
    ("Access-Control-Allow-Headers", "Content-Type, Authorization") ∈
      (routeRequest apiKeyEnv config scopesReply queryReply req).1.headers := by
  rcases routeRequest_response_shape apiKeyEnv config scopesReply queryReply
    req with h | ⟨c, d, h⟩ <;> rw [h] <;> simp [preflightResponse, sendJson]
